import Mathlib

/-!
Shallow embedding of the Booking Lifecycle Engine of the marketplace
backend (`BookingsService` in `src/bookings/bookings.service.ts`, together
with the Prisma data model of `prisma/migrations/.../migration.sql` and the
DTO shapes of `src/bookings/dto`).

Modelling conventions:
* Prisma rows become Lean structures; nullable columns become `Option`.
* Monetary `DECIMAL` values and JavaScript `number` arithmetic are modelled
  over `ℚ`.  All concrete inputs used in counterexamples and witnesses are
  dyadic rationals with few digits, on which IEEE double arithmetic is
  exact, so the rational model agrees with the JavaScript computation at
  every input we evaluate.
* Timestamps become `Int` (epoch milliseconds); `new Date(s)` on a DTO
  string is modelled by carrying the timestamp directly in the DTO.
* JavaScript truthiness on an optional string (`if (dto.customerId)`) is
  modelled by `strTruthy`: present and nonempty.
* `NestJS` exceptions become the `ServiceError` inductive; a storage-layer
  failure inside the transaction becomes `ServiceError.internal`.
* `prisma.$transaction(async (tx) => ...)` becomes `runTransaction`:
  the callback acts on a copy of the store; if it throws, the original
  store is kept (rollback), otherwise the modified store is committed.
* The money columns of `bookings` and `booking_items` are `DECIMAL(8,2)`
  (migration.sql): on insert PostgreSQL rounds the value to two decimals
  (half away from zero, which on these non-negative amounts is `round`),
  and Prisma's `create` returns the inserted row, so the row the service
  returns carries the rounded values.  `decimal2` models this coercion and
  is applied by the row constructors exactly where the INSERT happens.
* Failure of a single `tx.bookingItem.create` call is injected through an
  oracle `itemOk : Nat → Bool` (the i-th item create succeeds iff
  `itemOk i`); fresh row ids are passed in as parameters.
-/

namespace Marketplace

/-- Booking lifecycle states, from the Prisma enum `BookingStatus`. -/
inductive BookingStatus where
  | PENDING
  | CONFIRMED
  | COMPLETED
  | CANCELLED
  | NO_SHOW
deriving DecidableEq, Repr

/-- Guest contact info embedded in a create request (`GuestInfoDto`). -/
structure GuestInfo where
  firstName : String
  lastName : String
  email : String
  phone : Option String
deriving DecidableEq, Repr

/-- A row of the `users` table (only the fields the engine reads). -/
structure User where
  id : String
deriving DecidableEq, Repr

/-- A row of the `provider_locations` table (fields the engine reads). -/
structure ProviderLocation where
  providerId : String
  locationId : String
  isActive : Bool
deriving DecidableEq, Repr

/-- A row of the `provider_users` table (membership with capability flags). -/
structure ProviderUser where
  id : String
  providerId : String
  userId : String
  isOwner : Bool
  isActive : Bool
  canManageBookings : Bool
deriving DecidableEq, Repr

/-- A row of the `services` table (fields the engine reads). -/
structure Service where
  id : String
  providerId : String
  basePrice : ℚ
  isActive : Bool
deriving DecidableEq, Repr

/-- A row of the `bookings` table. -/
structure Booking where
  id : String
  customerId : Option String
  providerId : String
  assignedUserId : Option String
  providerUserId : Option String
  locationId : String
  startTime : Int
  endTime : Int
  status : BookingStatus
  subtotal : ℚ
  taxAmount : ℚ
  totalAmount : ℚ
  isGuestBooking : Bool
  guestFirstName : Option String
  guestLastName : Option String
  guestEmail : Option String
  guestPhone : Option String
  customerNotes : Option String
  providerNotes : Option String
deriving DecidableEq, Repr

/-- A row of the `booking_items` table. -/
structure BookingItem where
  id : String
  bookingId : String
  serviceId : String
  quantity : Nat
  unitPrice : ℚ
  total : ℚ
deriving DecidableEq, Repr

/-- The relational store as seen by the booking engine. -/
structure DB where
  users : List User
  providerLocations : List ProviderLocation
  providerUsers : List ProviderUser
  services : List Service
  bookings : List Booking
  bookingItems : List BookingItem
deriving DecidableEq, Repr

/-- Errors surfaced by the service: `BadRequestException` (HTTP 400),
`ForbiddenException` (403), `NotFoundException` (404), and a storage-layer
failure raised inside the transaction callback. -/
inductive ServiceError where
  | badRequest (msg : String)
  | forbidden (msg : String)
  | notFound (msg : String)
  | internal (msg : String)
deriving DecidableEq, Repr

/-- JavaScript truthiness of an optional string: present and nonempty. -/
def strTruthy : Option String → Bool
  | none => false
  | some s => s ≠ ""

/-- Models `prisma.user.findUnique({ where: { id } })`. -/
def DB.findUser (db : DB) (id : String) : Option User :=
  db.users.find? (fun u => u.id == id)

/-- Models `prisma.providerLocation.findFirst({ where: { providerId, locationId,
isActive: true } })`. -/
def DB.findActiveProviderLocation (db : DB) (providerId locationId : String) :
    Option ProviderLocation :=
  db.providerLocations.find? (fun pl =>
    pl.providerId == providerId && pl.locationId == locationId && pl.isActive)

/-- Models `prisma.providerUser.findFirst({ where: { providerId, userId,
isActive: true } })`. -/
def DB.findActiveProviderUser (db : DB) (providerId userId : String) :
    Option ProviderUser :=
  db.providerUsers.find? (fun pu =>
    pu.providerId == providerId && pu.userId == userId && pu.isActive)

/-- Models `prisma.providerUser.findUnique({ where: { id } })`. -/
def DB.findProviderUserById (db : DB) (id : String) : Option ProviderUser :=
  db.providerUsers.find? (fun pu => pu.id == id)

/-- Models `prisma.service.findMany({ where: { id: { in: serviceIds }, providerId,
isActive: true } })`. -/
def DB.findActiveServices (db : DB) (serviceIds : List String)
    (providerId : String) : List Service :=
  db.services.filter (fun s =>
    serviceIds.contains s.id && s.providerId == providerId && s.isActive)

/-- Models `prisma.booking.findUnique({ where: { id } })`. -/
def DB.findBooking (db : DB) (id : String) : Option Booking :=
  db.bookings.find? (fun b => b.id == id)

/-- Replace the booking row with the given id (`prisma.booking.update`). -/
def DB.updateBookingRow (db : DB) (id : String) (f : Booking → Booking) : DB :=
  { db with bookings := db.bookings.map (fun b => if b.id == id then f b else b) }

/-- The fixed consumption-tax rate, `0.125` in the source. -/
def taxRate : ℚ := 125 / 1000

/-- Models `services.reduce((sum, service) => sum + Number(service.basePrice), 0)`. -/
def computeSubtotal (services : List Service) : ℚ :=
  services.foldl (fun sum s => sum + s.basePrice) 0

/-- Models the `DECIMAL(8,2)` storage coercion of the money columns of the
`bookings` and `booking_items` tables: PostgreSQL rounds the inserted value
to two decimals (half away from zero; these amounts are non-negative). -/
def decimal2 (x : ℚ) : ℚ := (round (x * 100) : ℤ) / 100

/-- Models `prisma.$transaction(async (tx) => ...)`: run the callback on the store;
commit its result on success, keep the original store if it throws. -/
def runTransaction (db : DB) (body : DB → Except ServiceError (DB × α)) :
    DB × Except ServiceError α :=
  match body db with
  | .ok (db2, a) => (db2, .ok a)
  | .error e => (db, .error e)

/-- The body of `POST /bookings` (`CreateBookingDto`). -/
structure CreateBookingDto where
  customerId : Option String
  guestInfo : Option GuestInfo
  providerId : String
  locationId : String
  assignedUserId : Option String
  providerUserId : Option String
  startTime : Int
  endTime : Int
  serviceIds : List String
  customerNotes : Option String
deriving DecidableEq, Repr

/-- The two mutual-exclusivity checks opening `createBooking`. -/
def mutualExclusivityError (dto : CreateBookingDto) : Option ServiceError :=
  if !strTruthy dto.customerId && !dto.guestInfo.isSome then
    some (.badRequest "Either customerId or guestInfo must be provided")
  else if strTruthy dto.customerId && dto.guestInfo.isSome then
    some (.badRequest "Cannot provide both customerId and guestInfo")
  else
    none

/-- The read-only validation phase of `createBooking` (everything before the
transaction), returning the resolved active services on success.  Each
`else if` corresponds to one early `throw` of the source, in source order. -/
def validateCreate (db : DB) (dto : CreateBookingDto) :
    Except ServiceError (List Service) :=
  match mutualExclusivityError dto with
  | some e => .error e
  | none =>
    if strTruthy dto.customerId && !(db.findUser (dto.customerId.getD "")).isSome then
      .error (.badRequest "Customer not found")
    else if !(db.findActiveProviderLocation dto.providerId dto.locationId).isSome then
      .error (.badRequest "Invalid location for this provider")
    else if strTruthy dto.assignedUserId &&
        !(db.findActiveProviderUser dto.providerId (dto.assignedUserId.getD "")).isSome then
      .error (.badRequest "Invalid assigned user for this provider")
    else if strTruthy dto.providerUserId &&
        !((db.findProviderUserById (dto.providerUserId.getD "")).any
          (fun pu => pu.providerId == dto.providerId)) then
      .error (.badRequest "Invalid provider user for this provider")
    else if (db.findActiveServices dto.serviceIds dto.providerId).length
        ≠ dto.serviceIds.length then
      .error (.badRequest "Some services are invalid")
    else
      .ok (db.findActiveServices dto.serviceIds dto.providerId)

/-- The booking row assembled by `tx.booking.create` inside the transaction
(spread-with-truthiness semantics of the `data` object); the money fields
go through the `DECIMAL(8,2)` coercion of the `bookings` table, and the
returned row is the inserted one (`INSERT ... RETURNING`). -/
def mkBookingRow (dto : CreateBookingDto) (freshBookingId : String)
    (subtotal taxAmount totalAmount : ℚ) : Booking :=
  { id := freshBookingId
    customerId := if strTruthy dto.customerId then dto.customerId else none
    providerId := dto.providerId
    assignedUserId := if strTruthy dto.assignedUserId then dto.assignedUserId else none
    providerUserId := if strTruthy dto.providerUserId then dto.providerUserId else none
    locationId := dto.locationId
    startTime := dto.startTime
    endTime := dto.endTime
    status := .PENDING
    subtotal := decimal2 subtotal
    taxAmount := decimal2 taxAmount
    totalAmount := decimal2 totalAmount
    isGuestBooking := dto.guestInfo.isSome
    guestFirstName :=
      if strTruthy (dto.guestInfo.map GuestInfo.firstName) then
        dto.guestInfo.map GuestInfo.firstName
      else none
    guestLastName :=
      if strTruthy (dto.guestInfo.map GuestInfo.lastName) then
        dto.guestInfo.map GuestInfo.lastName
      else none
    guestEmail :=
      if strTruthy (dto.guestInfo.map GuestInfo.email) then
        dto.guestInfo.map GuestInfo.email
      else none
    guestPhone :=
      if strTruthy (dto.guestInfo.bind GuestInfo.phone) then
        dto.guestInfo.bind GuestInfo.phone
      else none
    customerNotes := if strTruthy dto.customerNotes then dto.customerNotes else none
    providerNotes := none }

/-- The `tx.bookingItem.create` calls: one item per resolved service, with
`unitPrice` and `total` snapshotting `basePrice` through the `DECIMAL(8,2)`
coercion of `booking_items`, and `quantity` defaulting to 1.  The i-th
create succeeds iff `itemOk i`; on failure the storage error propagates out
of the transaction callback. -/
def createItems (tx : DB) (bookingId : String) (services : List Service)
    (itemOk : Nat → Bool) (i : Nat) :
    Except ServiceError (DB × List BookingItem) :=
  match services with
  | [] => .ok (tx, [])
  | s :: rest =>
    if itemOk i then
      let item : BookingItem :=
        { id := bookingId ++ "." ++ toString i
          bookingId := bookingId
          serviceId := s.id
          quantity := 1
          unitPrice := decimal2 s.basePrice
          total := decimal2 s.basePrice }
      let tx1 : DB := { tx with bookingItems := tx.bookingItems ++ [item] }
      match createItems tx1 bookingId rest itemOk (i + 1) with
      | .ok (tx2, items) => .ok (tx2, item :: items)
      | .error e => .error e
    else
      .error (.internal "bookingItem.create failed")

/-- Models `BookingsService.createBooking`: validation, pricing, then the atomic
transaction creating the booking row and its items.  Returns the resulting
store together with the outcome. -/
def createBooking (db : DB) (dto : CreateBookingDto) (freshBookingId : String)
    (itemOk : Nat → Bool) :
    DB × Except ServiceError (Booking × List BookingItem) :=
  match validateCreate db dto with
  | .error e => (db, .error e)
  | .ok services =>
    let subtotal := computeSubtotal services
    let taxAmount := subtotal * taxRate
    let totalAmount := subtotal + taxAmount
    runTransaction db (fun tx =>
      let newBooking := mkBookingRow dto freshBookingId subtotal taxAmount totalAmount
      let tx1 : DB := { tx with bookings := tx.bookings ++ [newBooking] }
      match createItems tx1 freshBookingId services itemOk 0 with
      | .ok (tx2, items) => .ok (tx2, (newBooking, items))
      | .error e => .error e)

/-- Ascending comparison on start time (`orderBy: { startTime: 'asc' }`). -/
def startAsc (a b : Booking) : Prop := a.startTime ≤ b.startTime

/-- Descending comparison on start time (`orderBy: { startTime: 'desc' }`). -/
def startDesc (a b : Booking) : Prop := b.startTime ≤ a.startTime

instance : DecidableRel startAsc := fun a b =>
  inferInstanceAs (Decidable (a.startTime ≤ b.startTime))

instance : DecidableRel startDesc := fun a b =>
  inferInstanceAs (Decidable (b.startTime ≤ a.startTime))

instance : IsTotal Booking startAsc :=
  ⟨fun a b => Int.le_total a.startTime b.startTime⟩

instance : IsTrans Booking startAsc :=
  ⟨fun _ _ _ h h2 => le_trans h h2⟩

instance : IsTotal Booking startDesc :=
  ⟨fun a b => Int.le_total b.startTime a.startTime⟩

instance : IsTrans Booking startDesc :=
  ⟨fun _ _ _ h h2 => le_trans h2 h⟩

/-- Rows sorted soonest first. -/
def sortByStartAsc (l : List Booking) : List Booking :=
  List.insertionSort startAsc l

/-- Rows sorted most recent first. -/
def sortByStartDesc (l : List Booking) : List Booking :=
  List.insertionSort startDesc l

/-- The pagination envelope `{ page, limit, total, totalPages }`. -/
structure Pagination where
  page : Nat
  limit : Nat
  total : Nat
  totalPages : Nat
deriving DecidableEq, Repr

/-- Models `Math.ceil(total / limit)` on natural inputs with `limit > 0`. -/
def ceilPages (total limit : Nat) : Nat := (total + limit - 1) / limit

/-- The query of the listing endpoints (`GetBookingsQueryDto`). -/
structure GetBookingsQueryDto where
  status : Option BookingStatus
  locationId : Option String
  assignedUserId : Option String
  startDate : Option Int
  endDate : Option Int
  page : Option Nat
  limit : Option Nat
deriving DecidableEq, Repr

/-- The `where` object of `getUserBookings`: own rows with the optional
status and date-window filters. -/
def userBookingsWhere (userId : String) (dto : GetBookingsQueryDto)
    (b : Booking) : Bool :=
  b.customerId == some userId
    && (match dto.status with | some s => b.status == s | none => true)
    && (match dto.startDate with | some d => decide (d ≤ b.startTime) | none => true)
    && (match dto.endDate with | some d => decide (b.endTime ≤ d) | none => true)

/-- Models `BookingsService.getUserBookings`: the authenticated customer's own
bookings, filtered, ordered by start time descending, paginated. -/
def getUserBookings (db : DB) (userId : String) (dto : GetBookingsQueryDto) :
    List Booking × Pagination :=
  let page := dto.page.getD 1
  let limit := dto.limit.getD 20
  let skip := (page - 1) * limit
  let matched := db.bookings.filter (userBookingsWhere userId dto)
  let sorted := sortByStartDesc matched
  ((sorted.drop skip).take limit,
   { page := page, limit := limit, total := matched.length
     totalPages := ceilPages matched.length limit })

/-- The filter object built by `getProviderBookingsPaginated` before the
role-scoping override: string filters are spread only when truthy. -/
def providerFilters (dto : GetBookingsQueryDto) :
    Option BookingStatus × Option String × Option String × Option Int × Option Int :=
  (dto.status,
   if strTruthy dto.locationId then dto.locationId else none,
   if strTruthy dto.assignedUserId then dto.assignedUserId else none,
   dto.startDate,
   dto.endDate)

/-- The `where` object of the provider listing after role scoping:
`{ providerId, ...filters }`. -/
def providerBookingsWhere (providerId : String)
    (status : Option BookingStatus) (locationId assignedUserId : Option String)
    (startDate endDate : Option Int) (b : Booking) : Bool :=
  b.providerId == providerId
    && (match status with | some s => b.status == s | none => true)
    && (match locationId with | some l => b.locationId == l | none => true)
    && (match assignedUserId with | some u => b.assignedUserId == some u | none => true)
    && (match startDate with | some d => decide (d ≤ b.startTime) | none => true)
    && (match endDate with | some d => decide (b.endTime ≤ d) | none => true)

/-- Models `BookingsService.getProviderBookingsPaginated`: membership gate, role
scoping of the assigned-user filter, then filtered rows ordered by start
time ascending with pagination. -/
def getProviderBookingsPaginated (db : DB) (providerId userId : String)
    (dto : GetBookingsQueryDto) :
    Except ServiceError (List Booking × Pagination) :=
  match db.findActiveProviderUser providerId userId with
  | none => .error (.forbidden "Access denied")
  | some pu =>
    let page := dto.page.getD 1
    let limit := dto.limit.getD 20
    let skip := (page - 1) * limit
    let f := providerFilters dto
    let assignedF : Option String :=
      if !pu.isOwner && !pu.canManageBookings then some userId else f.2.2.1
    let matched := db.bookings.filter
      (providerBookingsWhere providerId f.1 f.2.1 assignedF f.2.2.2.1 f.2.2.2.2)
    let sorted := sortByStartAsc matched
    .ok ((sorted.drop skip).take limit,
      { page := page, limit := limit, total := matched.length
        totalPages := ceilPages matched.length limit })

/-- Models `BookingsService.getGuestBookingsByEmail`: all guest bookings with the
exact email, ordered by start time descending, unpaginated. -/
def getGuestBookingsByEmail (db : DB) (email : String) :
    Except ServiceError (List Booking) :=
  if email == "" then
    .error (.badRequest "Email is required")
  else
    .ok (sortByStartDesc (db.bookings.filter (fun b =>
      b.isGuestBooking && b.guestEmail == some email)))

/-- Models `BookingsService.getBookingById`: lookup by id, then the guest-email
gate (`booking.isGuestBooking && email` with JavaScript truthiness on the
optional query string). -/
def getBookingById (db : DB) (bookingId : String) (email : Option String) :
    Except ServiceError Booking :=
  match db.findBooking bookingId with
  | none => .error (.badRequest "Booking not found")
  | some b =>
    if b.isGuestBooking && strTruthy email then
      if b.guestEmail ≠ email then
        .error (.forbidden "Access denied")
      else
        .ok b
    else
      .ok b

/-- Models `BookingsService.assignBookingToUser`: requester needs an active
membership with `isOwner` or `canManageBookings`; the target must be an
active member of the provider; updates `assignedUserId` only. -/
def assignBookingToUser (db : DB) (bookingId assignedUserId requestingUserId : String) :
    DB × Except ServiceError Booking :=
  match db.findBooking bookingId with
  | none => (db, .error (.badRequest "Booking not found"))
  | some b =>
    let reqPU := db.findActiveProviderUser b.providerId requestingUserId
    if !(reqPU.map ProviderUser.canManageBookings).getD false
        && !(reqPU.map ProviderUser.isOwner).getD false then
      (db, .error (.forbidden "Insufficient permissions to assign bookings"))
    else
      match db.findActiveProviderUser b.providerId assignedUserId with
      | none => (db, .error (.badRequest "User is not part of this provider"))
      | some _ =>
        let db2 := db.updateBookingRow bookingId
          (fun row => { row with assignedUserId := some assignedUserId })
        (db2, .ok { b with assignedUserId := some assignedUserId })

/-- The body of `PATCH /bookings/:id` (`UpdateBookingDto`). -/
structure UpdateBookingDto where
  startTime : Option Int
  endTime : Option Int
  customerNotes : Option String
  assignedUserId : Option String
deriving DecidableEq, Repr

/-- Models `BookingsService.updateBooking`: owning customer (only in PENDING or
CONFIRMED) or any active team member may update; fields are spread in with
`&&` truthiness for times and `!== undefined` presence for notes and
assignment, with no membership check on the new `assignedUserId`. -/
def updateBooking (db : DB) (bookingId userId : String) (dto : UpdateBookingDto) :
    DB × Except ServiceError Booking :=
  match db.findBooking bookingId with
  | none => (db, .error (.notFound "Booking not found"))
  | some b =>
    let isCustomer := b.customerId == some userId
    let providerUser := db.findActiveProviderUser b.providerId userId
    if !isCustomer && !providerUser.isSome then
      (db, .error (.forbidden "You do not have permission to update this booking"))
    else if isCustomer && !(b.status == .PENDING || b.status == .CONFIRMED) then
      (db, .error (.badRequest "Cannot update booking in current status"))
    else
      let apply := fun (row : Booking) =>
        { row with
          startTime := match dto.startTime with | some t => t | none => row.startTime
          endTime := match dto.endTime with | some t => t | none => row.endTime
          customerNotes := match dto.customerNotes with
            | some n => some n | none => row.customerNotes
          assignedUserId := match dto.assignedUserId with
            | some u => some u | none => row.assignedUserId }
      (db.updateBookingRow bookingId apply, .ok (apply b))

/-- The body of `PATCH /bookings/:id/status` (`UpdateBookingStatusDto`). -/
structure UpdateBookingStatusDto where
  status : BookingStatus
  providerNotes : Option String
deriving DecidableEq, Repr

/-- Models `BookingsService.updateBookingStatus`: requester needs an active
membership with `isOwner` or `canManageBookings`; sets the status with no
check against the current status. -/
def updateBookingStatus (db : DB) (bookingId userId : String)
    (dto : UpdateBookingStatusDto) : DB × Except ServiceError Booking :=
  match db.findBooking bookingId with
  | none => (db, .error (.notFound "Booking not found"))
  | some b =>
    match db.findActiveProviderUser b.providerId userId with
    | none =>
      (db, .error (.forbidden "You do not have permission to update booking status"))
    | some pu =>
      if !pu.isOwner && !pu.canManageBookings then
        (db, .error (.forbidden "You do not have permission to update booking status"))
      else
        let apply := fun (row : Booking) =>
          { row with
            status := dto.status
            providerNotes := if strTruthy dto.providerNotes then dto.providerNotes
              else row.providerNotes }
        (db.updateBookingRow bookingId apply, .ok (apply b))

/-- Models `BookingsService.cancelBooking`: owning customer or any active team
member may cancel; rejected when the current status is COMPLETED or
CANCELLED; otherwise sets status to CANCELLED. -/
def cancelBooking (db : DB) (bookingId userId : String) :
    DB × Except ServiceError Booking :=
  match db.findBooking bookingId with
  | none => (db, .error (.notFound "Booking not found"))
  | some b =>
    let isCustomer := b.customerId == some userId
    let providerUser := db.findActiveProviderUser b.providerId userId
    if !isCustomer && !providerUser.isSome then
      (db, .error (.forbidden "You do not have permission to cancel this booking"))
    else if b.status == .COMPLETED || b.status == .CANCELLED then
      (db, .error (.badRequest "Cannot cancel booking in current status"))
    else
      let apply := fun (row : Booking) => { row with status := BookingStatus.CANCELLED }
      (db.updateBookingRow bookingId apply, .ok (apply b))

/-! Concrete fixtures used by witnesses and counterexamples. -/

/-- A booking row with neutral field values, adjusted per fixture. -/
def baseBooking : Booking :=
  { id := "b0", customerId := none, providerId := "p1", assignedUserId := none
    providerUserId := none, locationId := "l1", startTime := 0, endTime := 60
    status := .PENDING, subtotal := 0, taxAmount := 0, totalAmount := 0
    isGuestBooking := false, guestFirstName := none, guestLastName := none
    guestEmail := none, guestPhone := none, customerNotes := none
    providerNotes := none }

/-- The owner membership of user owner1 in provider p1. -/
def ownerPU : ProviderUser :=
  { id := "pu1", providerId := "p1", userId := "owner1", isOwner := true
    isActive := true, canManageBookings := true }

/-- The active membership of user staff1 in provider p1, with neither
`isOwner` nor `canManageBookings`. -/
def staffPU : ProviderUser :=
  { id := "pu2", providerId := "p1", userId := "staff1", isOwner := false
    isActive := true, canManageBookings := false }

/-- Provider p1 operates location l1; owner owner1; staff1 is an active
member with neither `isOwner` nor `canManageBookings`; services s1 (1500),
s2 (800) and s3 (100.25) are active; customer u1 exists. -/
def testDb : DB :=
  { users := [{ id := "u1" }]
    providerLocations := [{ providerId := "p1", locationId := "l1", isActive := true }]
    providerUsers := [ownerPU, staffPU]
    services :=
      [{ id := "s1", providerId := "p1", basePrice := 1500, isActive := true },
       { id := "s2", providerId := "p1", basePrice := 800, isActive := true },
       { id := "s3", providerId := "p1", basePrice := 401 / 4, isActive := true }]
    bookings := []
    bookingItems := [] }

/-- A guest create request for services s1 and s2. -/
def guestDto : CreateBookingDto :=
  { customerId := none
    guestInfo := some { firstName := "John", lastName := "Doe"
                        email := "a@b.com", phone := none }
    providerId := "p1", locationId := "l1", assignedUserId := none
    providerUserId := none, startTime := 100, endTime := 160
    serviceIds := ["s1", "s2"], customerNotes := none }

/-- A registered-customer create request for service s3 (priced 100.25). -/
def customerDto : CreateBookingDto :=
  { customerId := some "u1", guestInfo := none
    providerId := "p1", locationId := "l1", assignedUserId := none
    providerUserId := none, startTime := 100, endTime := 160
    serviceIds := ["s3"], customerNotes := none }

/-- A request supplying both `customerId` and `guestInfo`. -/
def bothDto : CreateBookingDto :=
  { customerDto with guestInfo := guestDto.guestInfo }

/-- A request supplying neither `customerId` nor `guestInfo`. -/
def neitherDto : CreateBookingDto :=
  { customerDto with customerId := none }

/-- A COMPLETED booking of customer u1 with provider p1. -/
def completedBooking : Booking :=
  { baseBooking with id := "bC", customerId := some "u1", status := .COMPLETED }

/-- A PENDING booking of customer u1 with provider p1. -/
def pendingBooking : Booking :=
  { baseBooking with id := "bP", customerId := some "u1", startTime := 100, endTime := 160 }

/-- A NO_SHOW booking of customer u1 with provider p1. -/
def noShowBooking : Booking :=
  { baseBooking with id := "bN", customerId := some "u1", status := .NO_SHOW }

/-- A CANCELLED booking of customer u1 with provider p1. -/
def cancelledBooking : Booking :=
  { baseBooking with id := "bX", customerId := some "u1", status := .CANCELLED }

/-- A guest booking with stored guest email a@b.com. -/
def guestBookingRow : Booking :=
  { baseBooking with
    id := "bG", isGuestBooking := true
    guestEmail := some "a@b.com", startTime := 50, endTime := 110 }

/-- A booking of customer u1 assigned to team member staff1. -/
def assignedBooking : Booking :=
  { baseBooking with
    id := "bA", customerId := some "u1", assignedUserId := some "staff1"
    startTime := 200, endTime := 260 }

/-- The test store extended with bookings in every lifecycle state. -/
def lifecycleDb : DB :=
  { testDb with bookings :=
      [completedBooking, pendingBooking, noShowBooking, cancelledBooking,
       guestBookingRow, assignedBooking] }

/-- A listing query with no filters and default pagination. -/
def emptyQuery : GetBookingsQueryDto :=
  { status := none, locationId := none, assignedUserId := none
    startDate := none, endDate := none, page := none, limit := none }

/-- Effect of a successful run of the item-creation loop: bookings are
untouched, the created items are appended, one item per service, all
pointing at the given booking id. -/
theorem createItems_ok (bookingId : String) (itemOk : Nat → Bool) :
    ∀ (services : List Service) (tx tx2 : DB) (i : Nat) (items : List BookingItem),
    createItems tx bookingId services itemOk i = .ok (tx2, items) →
    tx2.bookings = tx.bookings ∧
    tx2.bookingItems = tx.bookingItems ++ items ∧
    items.length = services.length ∧
    ∀ it ∈ items, it.bookingId = bookingId := by
  intro services
  induction services with
  | nil =>
    intro tx tx2 i items h
    simp only [createItems, Except.ok.injEq, Prod.mk.injEq] at h
    obtain ⟨rfl, rfl⟩ := h
    simp
  | cons s rest ih =>
    intro tx tx2 i items h
    simp only [createItems] at h
    split at h
    · split at h
      · next tx3 items3 heq =>
        simp only [Except.ok.injEq, Prod.mk.injEq] at h
        obtain ⟨rfl, rfl⟩ := h
        obtain ⟨e1, e2, e3, e4⟩ := ih _ _ _ _ heq
        refine ⟨by simpa using e1, ?_, by simpa using e3, ?_⟩
        · rw [e2]
          simp
        · intro it hit
          rcases List.mem_cons.mp hit with rfl | hmem
          · rfl
          · exact e4 it hmem
      · simp at h
    · simp at h

/-- A successful validation phase resolves exactly the active services of
the provider among the requested ids, as many as requested ids. -/
theorem validateCreate_ok (db : DB) (dto : CreateBookingDto)
    (services : List Service)
    (h : validateCreate db dto = .ok services) :
    services = db.findActiveServices dto.serviceIds dto.providerId ∧
    services.length = dto.serviceIds.length := by
  unfold validateCreate at h
  split at h
  · simp at h
  split at h
  · simp at h
  split at h
  · simp at h
  split at h
  · simp at h
  split at h
  · simp at h
  split at h
  · simp at h
  next hlen =>
    injection h with h2
    subst h2
    exact ⟨rfl, not_ne_iff.mp hlen⟩

/-- C1: the Booking row and its BookingItem rows are persisted atomically:
on success the booking row and exactly its item rows (one per requested
service) all exist in the resulting store; on any failure, including an
item-persistence failure raised after the booking row was written inside
the transaction, the store is unchanged and the new booking id is not
readable. -/
theorem createBooking_atomic (db : DB) (dto : CreateBookingDto)
    (freshId : String) (itemOk : Nat → Bool)
    (hB : ∀ b ∈ db.bookings, b.id ≠ freshId)
    (hI : ∀ it ∈ db.bookingItems, it.bookingId ≠ freshId) :
    match createBooking db dto freshId itemOk with
    | (db2, .ok (bk, items)) =>
        bk.id = freshId ∧ bk ∈ db2.bookings ∧
        (∀ it ∈ items, it ∈ db2.bookingItems ∧ it.bookingId = freshId) ∧
        db2.bookingItems.filter (fun it => it.bookingId == freshId) = items ∧
        items.length = dto.serviceIds.length
    | (db2, .error _) => db2 = db ∧ db2.findBooking freshId = none := by
  have hfind : db.findBooking freshId = none := by
    apply List.find?_eq_none.mpr
    intro b hb
    simpa using hB b hb
  rcases hcb : createBooking db dto freshId itemOk with ⟨db2, res⟩
  unfold createBooking at hcb
  rcases hv : validateCreate db dto with e | services
  · rw [hv] at hcb
    injection hcb with h1 h2
    subst h1
    subst h2
    exact ⟨rfl, hfind⟩
  · rw [hv] at hcb
    simp only [runTransaction] at hcb
    split at hcb
    · next x a heq =>
      split at heq
      · next tx2' items' heq2 =>
        simp only [Except.ok.injEq, Prod.mk.injEq] at heq
        obtain ⟨rfl, rfl⟩ := heq
        injection hcb with hc1 hc2
        subst hc1
        subst hc2
        obtain ⟨e1, e2, e3, e4⟩ := createItems_ok freshId itemOk services _ _ _ _ heq2
        obtain ⟨hsv, hlen⟩ := validateCreate_ok db dto services hv
        refine ⟨rfl, ?_, ?_, ?_, ?_⟩
        · rw [e1]
          simp
        · intro it hit
          refine ⟨?_, e4 it hit⟩
          rw [e2]
          simp [hit]
        · rw [e2, List.filter_append]
          have hnil : List.filter (fun it => it.bookingId == freshId) db.bookingItems = [] := by
            apply List.filter_eq_nil_iff.mpr
            intro it hit
            simpa using hI it hit
          have hall : List.filter (fun it => it.bookingId == freshId) items' = items' := by
            apply List.filter_eq_self.mpr
            intro it hit
            simpa using e4 it hit
          show List.filter (fun it => it.bookingId == freshId) db.bookingItems ++
              List.filter (fun it => it.bookingId == freshId) items' = items'
          rw [hnil, hall]
          rfl
        · rw [e3, ← hlen]
      · simp at heq
    · injection hcb with h1 h2
      subst h1
      subst h2
      exact ⟨rfl, hfind⟩

/-- Witness for C1 at a concrete request: with all item creates succeeding
the booking and both items are committed; with the first item create
failing after the booking row was written, the store rolls back and the
booking id is unreadable. -/
theorem createBooking_atomic_witness :
    (∀ b ∈ testDb.bookings, b.id ≠ "b1") ∧
    (match createBooking testDb guestDto "b1" (fun _ => true) with
     | (db2, .ok (bk, items)) =>
         bk.id = "b1" ∧ bk ∈ db2.bookings ∧
         (∀ it ∈ items, it ∈ db2.bookingItems ∧ it.bookingId = "b1") ∧
         db2.bookingItems.filter (fun it => it.bookingId == "b1") = items ∧
         items.length = guestDto.serviceIds.length
     | (db2, .error _) => db2 = testDb ∧ db2.findBooking "b1" = none) ∧
    (match createBooking testDb guestDto "b1" (fun _ => false) with
     | (db2, .ok (bk, items)) =>
         bk.id = "b1" ∧ bk ∈ db2.bookings ∧
         (∀ it ∈ items, it ∈ db2.bookingItems ∧ it.bookingId = "b1") ∧
         db2.bookingItems.filter (fun it => it.bookingId == "b1") = items ∧
         items.length = guestDto.serviceIds.length
     | (db2, .error _) => db2 = testDb ∧ db2.findBooking "b1" = none) :=
  ⟨by decide,
   createBooking_atomic testDb guestDto "b1" (fun _ => true)
     (by decide) (by decide),
   createBooking_atomic testDb guestDto "b1" (fun _ => false)
     (by decide) (by decide)⟩

/-- C3: a createBooking request with both `customerId` and `guestInfo`, or
with neither, is rejected with a `ValidationError` naming the violated rule
and creates nothing (the store is returned unchanged); when exactly one of
the two is present, the mutual-exclusivity check passes. -/
theorem createBooking_mutual_exclusivity (db : DB) (dto : CreateBookingDto)
    (freshId : String) (itemOk : Nat → Bool) :
    (strTruthy dto.customerId = true → dto.guestInfo.isSome = true →
      createBooking db dto freshId itemOk =
        (db, .error (.badRequest "Cannot provide both customerId and guestInfo"))) ∧
    (strTruthy dto.customerId = false → dto.guestInfo.isSome = false →
      createBooking db dto freshId itemOk =
        (db, .error (.badRequest "Either customerId or guestInfo must be provided"))) ∧
    (strTruthy dto.customerId ≠ dto.guestInfo.isSome →
      mutualExclusivityError dto = none) := by
  refine ⟨?_, ?_, ?_⟩
  · intro h1 h2
    simp [createBooking, validateCreate, mutualExclusivityError, h1, h2]
  · intro h1 h2
    simp [createBooking, validateCreate, mutualExclusivityError, h1, h2]
  · intro h
    cases hc : strTruthy dto.customerId <;> cases hg : dto.guestInfo.isSome <;>
      simp_all [mutualExclusivityError]

/-- Witness for C3 at concrete requests: both present, neither present, and
exactly one present. -/
theorem createBooking_mutual_exclusivity_witness :
    createBooking testDb bothDto "b1" (fun _ => true) =
      (testDb, .error (.badRequest "Cannot provide both customerId and guestInfo")) ∧
    createBooking testDb neitherDto "b1" (fun _ => true) =
      (testDb, .error (.badRequest "Either customerId or guestInfo must be provided")) ∧
    mutualExclusivityError customerDto = none := by
  refine ⟨?_, ?_, ?_⟩
  · exact (createBooking_mutual_exclusivity testDb bothDto "b1" (fun _ => true)).1
      (by decide) (by decide)
  · exact (createBooking_mutual_exclusivity testDb neitherDto "b1" (fun _ => true)).2.1
      (by decide) (by decide)
  · exact (createBooking_mutual_exclusivity testDb customerDto "b1" (fun _ => true)).2.2
      (by decide)

/-- Updating the row with a given id through an id-preserving function is
visible to a subsequent lookup of that id. -/
theorem find_update_row (id : String) (f : Booking → Booking)
    (hf : ∀ b, (f b).id = b.id) :
    ∀ (l : List Booking) (b : Booking),
    l.find? (fun x => x.id == id) = some b →
    (l.map (fun x => if x.id == id then f x else x)).find? (fun x => x.id == id)
      = some (f b) := by
  intro l
  induction l with
  | nil => intro b h; simp at h
  | cons a l ih =>
    intro b h
    by_cases ha : (a.id == id) = true
    · simp only [List.find?, ha] at h
      injection h with h2
      subst h2
      simp [List.find?, List.map_cons, ha, hf]
    · rw [Bool.not_eq_true] at ha
      simp only [List.find?, ha] at h
      simp only [List.map_cons, ha, Bool.false_eq_true, if_false, List.find?]
      exact ih b h

/-- The same fact phrased through the store operations. -/
theorem findBooking_updateBookingRow (db : DB) (id : String)
    (f : Booking → Booking) (hf : ∀ b, (f b).id = b.id) (b : Booking)
    (h : db.findBooking id = some b) :
    (db.updateBookingRow id f).findBooking id = some (f b) :=
  find_update_row id f hf db.bookings b h

/-- C4: on a booking whose status is COMPLETED or CANCELLED, cancelBooking
invoked by a permitted actor (owning customer or active team member) always
returns the state error and leaves the store unchanged; on a booking in any
other status a permitted cancel succeeds and sets the status to CANCELLED,
both in the returned row and in the stored row. -/
theorem cancelBooking_terminal (db : DB) (bookingId userId : String)
    (b : Booking)
    (hfind : db.findBooking bookingId = some b)
    (hperm : b.customerId = some userId ∨
      (db.findActiveProviderUser b.providerId userId).isSome = true) :
    ((b.status = .COMPLETED ∨ b.status = .CANCELLED) →
      cancelBooking db bookingId userId =
        (db, .error (.badRequest "Cannot cancel booking in current status"))) ∧
    ((b.status ≠ .COMPLETED ∧ b.status ≠ .CANCELLED) →
      (cancelBooking db bookingId userId).2 =
        .ok { b with status := .CANCELLED } ∧
      ((cancelBooking db bookingId userId).1).findBooking bookingId =
        some { b with status := .CANCELLED }) := by
  have hp : (!(b.customerId == some userId) &&
      !(db.findActiveProviderUser b.providerId userId).isSome) = false := by
    rcases hperm with h | h
    · simp [h]
    · simp [h]
  constructor
  · intro hst
    unfold cancelBooking
    rw [hfind]
    simp only [hp, Bool.false_eq_true, if_false]
    rcases hst with h | h <;> simp [h]
  · intro hst
    unfold cancelBooking
    rw [hfind]
    simp only [hp, Bool.false_eq_true, if_false]
    have hc : (b.status == BookingStatus.COMPLETED
        || b.status == BookingStatus.CANCELLED) = false := by
      simp [hst.1, hst.2]
    simp only [hc, Bool.false_eq_true, if_false]
    refine ⟨by trivial, ?_⟩
    exact findBooking_updateBookingRow db bookingId
      (fun row => { row with status := BookingStatus.CANCELLED })
      (fun _ => rfl) b hfind

/-- Witness for C4: the permitted customer cannot cancel the COMPLETED
booking bC, and the store is unchanged; the same customer cancels the
PENDING booking bP, whose stored status becomes CANCELLED. -/
theorem cancelBooking_terminal_witness :
    cancelBooking lifecycleDb "bC" "u1" =
      (lifecycleDb, .error (.badRequest "Cannot cancel booking in current status")) ∧
    ((cancelBooking lifecycleDb "bP" "u1").2 =
        .ok { pendingBooking with status := .CANCELLED } ∧
      ((cancelBooking lifecycleDb "bP" "u1").1).findBooking "bP" =
        some { pendingBooking with status := .CANCELLED }) :=
  ⟨(cancelBooking_terminal lifecycleDb "bC" "u1" completedBooking
      (by decide) (by decide)).1 (by decide),
   (cancelBooking_terminal lifecycleDb "bP" "u1" pendingBooking
      (by decide) (by decide)).2 (by decide)⟩

/-- C5 counterexample: COMPLETED is not terminal for every operation: the
provider owner moves the COMPLETED booking bC back to CONFIRMED through
updateBookingStatus, which checks permissions but never the current
status. -/
theorem terminal_status_counterexample :
    completedBooking.status = .COMPLETED ∧
    (updateBookingStatus lifecycleDb "bC" "owner1"
        { status := .CONFIRMED, providerNotes := none }).2.toOption.map Booking.status
      = some .CONFIRMED ∧
    ((updateBookingStatus lifecycleDb "bC" "owner1"
        { status := .CONFIRMED, providerNotes := none }).1).findBooking "bC"
      = some { completedBooking with status := .CONFIRMED } := by
  refine ⟨rfl, by decide, by decide⟩

/-- C5 amended: only cancelBooking treats COMPLETED and CANCELLED as
terminal (state error, store unchanged); updateBookingStatus, invoked by a
member with `isOwner` or `canManageBookings`, sets any requested status
whatever the current status, including out of COMPLETED, CANCELLED and
NO_SHOW; and cancelBooking succeeds on a NO_SHOW booking, setting it to
CANCELLED. -/
theorem terminal_statuses_amended (db : DB) (bookingId userId : String)
    (b : Booking) (dto : UpdateBookingStatusDto) (pu : ProviderUser)
    (hfind : db.findBooking bookingId = some b)
    (hpu : db.findActiveProviderUser b.providerId userId = some pu)
    (hperm : pu.isOwner = true ∨ pu.canManageBookings = true) :
    ((b.status = .COMPLETED ∨ b.status = .CANCELLED) →
      cancelBooking db bookingId userId =
        (db, .error (.badRequest "Cannot cancel booking in current status"))) ∧
    ((updateBookingStatus db bookingId userId dto).2.toOption.map Booking.status
      = some dto.status) ∧
    (b.status = .NO_SHOW →
      (cancelBooking db bookingId userId).2.toOption.map Booking.status
        = some .CANCELLED) := by
  have hpOpt : (db.findActiveProviderUser b.providerId userId).isSome = true := by
    rw [hpu]
    rfl
  have hpb : (!(b.customerId == some userId) &&
      !(db.findActiveProviderUser b.providerId userId).isSome) = false := by
    simp [hpOpt]
  refine ⟨?_, ?_, ?_⟩
  · intro hst
    unfold cancelBooking
    rw [hfind]
    simp only [hpb, Bool.false_eq_true, if_false]
    rcases hst with h | h <;> simp [h]
  · unfold updateBookingStatus
    rw [hfind]
    have hp2 : (!pu.isOwner && !pu.canManageBookings) = false := by
      rcases hperm with h | h <;> simp [h]
    simp only [hpu, hp2, Bool.false_eq_true, if_false]
    rfl
  · intro hst
    unfold cancelBooking
    rw [hfind]
    simp only [hpb, Bool.false_eq_true, if_false]
    have hc : (b.status == BookingStatus.COMPLETED
        || b.status == BookingStatus.CANCELLED) = false := by
      simp [hst]
    simp only [hc, Bool.false_eq_true, if_false]
    rfl

/-- Witness for C5 amended: the owner is blocked from cancelling the
COMPLETED booking bC but moves it to PENDING via updateBookingStatus, and
cancels the NO_SHOW booking bN. -/
theorem terminal_statuses_amended_witness :
    cancelBooking lifecycleDb "bC" "owner1" =
      (lifecycleDb, .error (.badRequest "Cannot cancel booking in current status")) ∧
    (updateBookingStatus lifecycleDb "bC" "owner1"
        { status := .PENDING, providerNotes := none }).2.toOption.map Booking.status
      = some .PENDING ∧
    (cancelBooking lifecycleDb "bN" "owner1").2.toOption.map Booking.status
      = some .CANCELLED :=
  ⟨(terminal_statuses_amended lifecycleDb "bC" "owner1" completedBooking
      { status := .PENDING, providerNotes := none } ownerPU
      (by decide) (by decide) (by decide)).1 (by decide),
   (terminal_statuses_amended lifecycleDb "bC" "owner1" completedBooking
      { status := .PENDING, providerNotes := none } ownerPU
      (by decide) (by decide) (by decide)).2.1,
   (terminal_statuses_amended lifecycleDb "bN" "owner1" noShowBooking
      { status := .PENDING, providerNotes := none } ownerPU
      (by decide) (by decide) (by decide)).2.2 (by decide)⟩

/-- C9: on a booking id absent from the store, getBookingById and
assignBookingToUser surface a BadRequest (HTTP 400) carrying the message
Booking not found, while updateBooking, updateBookingStatus and
cancelBooking surface NotFound (HTTP 404); the claim that every operation
surfaces 404 on an unknown id fails for the first two. -/
theorem unknown_booking_error_codes :
    getBookingById lifecycleDb "missing" none =
      .error (.badRequest "Booking not found") ∧
    (assignBookingToUser lifecycleDb "missing" "staff1" "owner1").2 =
      .error (.badRequest "Booking not found") ∧
    (updateBooking lifecycleDb "missing" "u1"
        { startTime := none, endTime := none, customerNotes := none
          assignedUserId := none }).2 =
      .error (.notFound "Booking not found") ∧
    (updateBookingStatus lifecycleDb "missing" "owner1"
        { status := .CONFIRMED, providerNotes := none }).2 =
      .error (.notFound "Booking not found") ∧
    (cancelBooking lifecycleDb "missing" "u1").2 =
      .error (.notFound "Booking not found") := by
  refine ⟨?_, ?_, ?_, ?_, ?_⟩ <;> rfl

/-- C7: on a guest booking, getBookingById with a caller-supplied
(nonempty) email returns 403 Access denied whenever the email differs from
the stored guest email, returns the booking when it matches exactly, and
returns the booking when no email is supplied. -/
theorem getBookingById_guest_email (db : DB) (bookingId : String) (b : Booking)
    (hfind : db.findBooking bookingId = some b)
    (hguest : b.isGuestBooking = true) :
    (∀ e : String, e ≠ "" → b.guestEmail ≠ some e →
      getBookingById db bookingId (some e) = .error (.forbidden "Access denied")) ∧
    (∀ e : String, e ≠ "" → b.guestEmail = some e →
      getBookingById db bookingId (some e) = .ok b) ∧
    getBookingById db bookingId none = .ok b := by
  refine ⟨?_, ?_, ?_⟩
  · intro e he hne
    unfold getBookingById
    rw [hfind]
    simp [hguest, strTruthy, he, hne]
  · intro e he heq
    unfold getBookingById
    rw [hfind]
    simp [hguest, strTruthy, he, heq]
  · unfold getBookingById
    rw [hfind]
    simp [strTruthy]

/-- Witness for C7 at the guest booking bG stored with email a@b.com: a
wrong email is denied, the exact email and the absent email are served. -/
theorem getBookingById_guest_email_witness :
    getBookingById lifecycleDb "bG" (some "wrong@b.com") =
      .error (.forbidden "Access denied") ∧
    getBookingById lifecycleDb "bG" (some "a@b.com") = .ok guestBookingRow ∧
    getBookingById lifecycleDb "bG" none = .ok guestBookingRow :=
  ⟨(getBookingById_guest_email lifecycleDb "bG" guestBookingRow
      (by decide) (by decide)).1 "wrong@b.com" (by decide) (by decide),
   (getBookingById_guest_email lifecycleDb "bG" guestBookingRow
      (by decide) (by decide)).2.1 "a@b.com" (by decide) (by decide),
   (getBookingById_guest_email lifecycleDb "bG" guestBookingRow
      (by decide) (by decide)).2.2⟩

/-- C6: when an actor holding an active membership with neither `isOwner`
nor `canManageBookings` lists provider bookings, every booking in the
returned page has assignedUserId equal to that actor, whatever
assignedUserId filter the request carried. -/
theorem providerBookings_scoped_visibility (db : DB)
    (providerId userId : String) (dto : GetBookingsQueryDto)
    (pu : ProviderUser)
    (hpu : db.findActiveProviderUser providerId userId = some pu)
    (hown : pu.isOwner = false) (hmng : pu.canManageBookings = false) :
    match getProviderBookingsPaginated db providerId userId dto with
    | .ok res => ∀ b ∈ res.1, b.assignedUserId = some userId
    | .error _ => True := by
  unfold getProviderBookingsPaginated
  simp only [hpu, hown, hmng, Bool.not_false, Bool.and_self, if_true]
  intro b hb
  have hb2 : b ∈ sortByStartAsc (db.bookings.filter
      (providerBookingsWhere providerId (providerFilters dto).1
        (providerFilters dto).2.1 (some userId)
        (providerFilters dto).2.2.2.1 (providerFilters dto).2.2.2.2)) :=
    List.drop_subset _ _ (List.take_subset _ _ hb)
  have hb3 : b ∈ db.bookings.filter
      (providerBookingsWhere providerId (providerFilters dto).1
        (providerFilters dto).2.1 (some userId)
        (providerFilters dto).2.2.2.1 (providerFilters dto).2.2.2.2) :=
    (List.perm_insertionSort startAsc _).mem_iff.mp hb2
  have hpred := (List.mem_filter.mp hb3).2
  simp only [providerBookingsWhere, Bool.and_eq_true] at hpred
  obtain ⟨⟨⟨⟨⟨_, _⟩, _⟩, h4⟩, _⟩, _⟩ := hpred
  simpa using h4

/-- Witness for C6: staff1 (active member, not owner, cannot manage
bookings) lists the bookings of p1 while filtering for owner1; the page
holds exactly the booking assigned to staff1. -/
theorem providerBookings_scoped_visibility_witness :
    (match getProviderBookingsPaginated lifecycleDb "p1" "staff1"
        { emptyQuery with assignedUserId := some "owner1" } with
     | .ok res => ∀ b ∈ res.1, b.assignedUserId = some "staff1"
     | .error _ => True) ∧
    ((getProviderBookingsPaginated lifecycleDb "p1" "staff1"
        { emptyQuery with assignedUserId := some "owner1" }).toOption.map
      (fun res => res.1.map Booking.id)) = some ["bA"] :=
  ⟨providerBookings_scoped_visibility lifecycleDb "p1" "staff1"
      { emptyQuery with assignedUserId := some "owner1" } staffPU
      (by decide) (by decide) (by decide),
   by decide⟩

/-- C8 counterexample: the customer own-bookings view is ordered most
recent first, not ascending: for customer u1 the returned start times are
[200, 100, 0, 0, 0], which is not sorted ascending. -/
theorem getUserBookings_order_counterexample :
    ((getUserBookings lifecycleDb "u1" emptyQuery).1.map Booking.startTime)
      = [200, 100, 0, 0, 0] ∧
    ¬ List.Sorted (fun a b => a ≤ b)
        ((getUserBookings lifecycleDb "u1" emptyQuery).1.map Booking.startTime) := by
  refine ⟨by decide, ?_⟩
  rw [show ((getUserBookings lifecycleDb "u1" emptyQuery).1.map Booking.startTime)
      = [200, 100, 0, 0, 0] by decide]
  decide

/-- C8 amended: the default ordering is descending by start time (most
recent first) for the customer own-bookings view and for guest lookups by
email, and ascending by start time (soonest first) for the provider
bookings view. -/
theorem listing_default_ordering :
    (∀ (db : DB) (userId : String) (dto : GetBookingsQueryDto),
      List.Sorted startDesc (getUserBookings db userId dto).1) ∧
    (∀ (db : DB) (providerId userId : String) (dto : GetBookingsQueryDto),
      match getProviderBookingsPaginated db providerId userId dto with
      | .ok res => List.Sorted startAsc res.1
      | .error _ => True) ∧
    (∀ (db : DB) (email : String),
      match getGuestBookingsByEmail db email with
      | .ok l => List.Sorted startDesc l
      | .error _ => True) := by
  refine ⟨?_, ?_, ?_⟩
  · intro db userId dto
    exact ((List.sorted_insertionSort startDesc _).sublist
      (List.Sublist.trans (List.take_sublist _ _) (List.drop_sublist _ _)))
  · intro db providerId userId dto
    unfold getProviderBookingsPaginated
    rcases h : db.findActiveProviderUser providerId userId with _ | pu
    · trivial
    · exact ((List.sorted_insertionSort startAsc _).sublist
        (List.Sublist.trans (List.take_sublist _ _) (List.drop_sublist _ _)))
  · intro db email
    unfold getGuestBookingsByEmail
    rcases h : email == "" with _ | _
    · exact List.sorted_insertionSort startDesc _
    · trivial

/-- Witness for C8 amended at the concrete store: the customer view of u1
is sorted descending, the provider view of owner1 is sorted ascending, and
the guest lookup for a@b.com is sorted descending. -/
theorem listing_default_ordering_witness :
    List.Sorted startDesc (getUserBookings lifecycleDb "u1" emptyQuery).1 ∧
    (match getProviderBookingsPaginated lifecycleDb "p1" "owner1" emptyQuery with
     | .ok res => List.Sorted startAsc res.1
     | .error _ => True) ∧
    (match getGuestBookingsByEmail lifecycleDb "a@b.com" with
     | .ok l => List.Sorted startDesc l
     | .error _ => True) :=
  ⟨listing_default_ordering.1 lifecycleDb "u1" emptyQuery,
   listing_default_ordering.2.1 lifecycleDb "p1" "owner1" emptyQuery,
   listing_default_ordering.2.2 lifecycleDb "a@b.com"⟩

/-- C10: updateBooking stores any supplied assignedUserId without checking
that the target holds an active membership in the booking's provider: for
every authorized request (owning customer while PENDING or CONFIRMED, or an
active team member) and every target string — here one with no active
membership — the update succeeds and both the returned and the stored row
carry that assignedUserId, while assignBookingToUser with the same target
is rejected with 400 even for a fully privileged requester. -/
theorem updateBooking_assignment_unchecked (db : DB)
    (bookingId userId target requester : String) (b : Booking)
    (dto : UpdateBookingDto) (requesterPU : ProviderUser)
    (hfind : db.findBooking bookingId = some b)
    (hauth : (b.customerId = some userId ∧
        (b.status = .PENDING ∨ b.status = .CONFIRMED)) ∨
      (b.customerId ≠ some userId ∧
        (db.findActiveProviderUser b.providerId userId).isSome = true))
    (htarget : dto.assignedUserId = some target)
    (hreqPU : db.findActiveProviderUser b.providerId requester = some requesterPU)
    (hreqPerm : requesterPU.canManageBookings = true ∨ requesterPU.isOwner = true)
    (htargetNone : db.findActiveProviderUser b.providerId target = none) :
    (updateBooking db bookingId userId dto).2.toOption.map Booking.assignedUserId
      = some (some target) ∧
    (((updateBooking db bookingId userId dto).1).findBooking bookingId).map
        Booking.assignedUserId = some (some target) ∧
    assignBookingToUser db bookingId target requester =
      (db, .error (.badRequest "User is not part of this provider")) := by
  have h1 : (!(b.customerId == some userId) &&
      !(db.findActiveProviderUser b.providerId userId).isSome) = false := by
    rcases hauth with ⟨hc, _⟩ | ⟨_, hm⟩
    · simp [hc]
    · simp [hm]
  have h2 : ((b.customerId == some userId) &&
      !(b.status == BookingStatus.PENDING
        || b.status == BookingStatus.CONFIRMED)) = false := by
    rcases hauth with ⟨hc, hs⟩ | ⟨hc, _⟩
    · rcases hs with h | h <;> simp [hc, h]
    · simp [hc]
  refine ⟨?_, ?_, ?_⟩
  · unfold updateBooking
    rw [hfind]
    simp only [h1, h2, Bool.false_eq_true, if_false]
    simp [htarget]
    exact ⟨_, rfl, rfl⟩
  · unfold updateBooking
    rw [hfind]
    simp only [h1, h2, Bool.false_eq_true, if_false]
    have hrow := findBooking_updateBookingRow db bookingId
      (fun row =>
        { row with
          startTime := match dto.startTime with | some t => t | none => row.startTime
          endTime := match dto.endTime with | some t => t | none => row.endTime
          customerNotes := match dto.customerNotes with
            | some n => some n | none => row.customerNotes
          assignedUserId := match dto.assignedUserId with
            | some u => some u | none => row.assignedUserId })
      (fun _ => rfl) b hfind
    rw [hrow]
    simp [htarget]
  · unfold assignBookingToUser
    rw [hfind]
    have hperm2 : (!(((db.findActiveProviderUser b.providerId requester).map
          ProviderUser.canManageBookings).getD false) &&
        !(((db.findActiveProviderUser b.providerId requester).map
          ProviderUser.isOwner).getD false)) = false := by
      rw [hreqPU]
      rcases hreqPerm with h | h <;> simp [h]
    simp only [hperm2, Bool.false_eq_true, if_false, htargetNone]

/-- Witness for C10: the owning customer u1 of the PENDING booking bP sets
assignedUserId to the string stranger, which holds no membership in p1;
the update succeeds and is stored, while assignBookingToUser of stranger
requested by the owner is rejected. -/
theorem updateBooking_assignment_unchecked_witness :
    (updateBooking lifecycleDb "bP" "u1"
        { startTime := none, endTime := none, customerNotes := none
          assignedUserId := some "stranger" }).2.toOption.map Booking.assignedUserId
      = some (some "stranger") ∧
    (((updateBooking lifecycleDb "bP" "u1"
        { startTime := none, endTime := none, customerNotes := none
          assignedUserId := some "stranger" }).1).findBooking "bP").map
        Booking.assignedUserId = some (some "stranger") ∧
    assignBookingToUser lifecycleDb "bP" "stranger" "owner1" =
      (lifecycleDb, .error (.badRequest "User is not part of this provider")) :=
  updateBooking_assignment_unchecked lifecycleDb "bP" "u1" "stranger" "owner1"
    pendingBooking
    { startTime := none, endTime := none, customerNotes := none
      assignedUserId := some "stranger" }
    ownerPU (by decide) (Or.inl ⟨by decide, Or.inl (by decide)⟩)
    (by decide) (by decide) (Or.inr (by decide)) (by decide)

end Marketplace
